import Mathlib

/-! Verification development for the fitbit-influxdb-enhanced ingestion pipeline.
    Shallow embedding of fitbit_to_influx.py: JSON values, Python-style
    container operations with explicit exceptions, the API client with token
    refresh and rate-limit handling, the per-metric normalizer, the PEM risk
    score, the health-condition configuration and the main-run orchestration.
    HTTP traffic is modelled by scripted response lists consumed in order; a
    missing scripted response stands for a transport-level exception. -/

/-- A JSON-like value as handled by the Python code (numbers collapsed to
rationals, object key order = insertion order). -/
inductive JValue : Type where
  | null : JValue
  | bool : Bool → JValue
  | num : Rat → JValue
  | str : String → JValue
  | arr : List JValue → JValue
  | obj : List (String × JValue) → JValue

/-- The Python exception kinds that the embedded code can raise. -/
inductive PyErr : Type where
  | keyErr : PyErr
  | typeErr : PyErr
  | valueErr : PyErr
  | indexErr : PyErr
  | attrErr : PyErr
  | zeroDivErr : PyErr
deriving DecidableEq, Repr

/-- First-match lookup in an object field list (keys are unique in payloads). -/
def jLookup : List (String × JValue) → String → Option JValue
  | [], _ => none
  | (k, v) :: rest, key => if k = key then some v else jLookup rest key

/-- Python truthiness of a JSON value. -/
def pyTruthy : JValue → Bool
  | .null => false
  | .bool b => b
  | .num q => q != 0
  | .str s => s != ""
  | .arr xs => !xs.isEmpty
  | .obj kvs => !kvs.isEmpty

/-- needle is an initial run of hay (over character lists). -/
def leadsWith : List Char → List Char → Bool
  | [], _ => true
  | _ :: _, [] => false
  | a :: as, b :: bs => a == b && leadsWith as bs

/-- needle occurs somewhere in hay (over character lists). -/
def occursIn (needle hay : List Char) : Bool :=
  match hay with
  | [] => needle.isEmpty
  | _ :: rest => leadsWith needle hay || occursIn needle rest

/-- Substring test: needle occurs in hay. -/
def strContains (hay needle : String) : Bool :=
  occursIn needle.data hay.data

/-- Split a character list on a separator character (Python str.split with a
one-character separator). -/
def splitChar (sep : Char) : List Char → List (List Char)
  | [] => [[]]
  | c :: rest =>
    match splitChar sep rest with
    | [] => [[]]
    | seg :: segs => if c == sep then [] :: seg :: segs else (c :: seg) :: segs

def strSplitChar (s : String) (sep : Char) : List String :=
  (splitChar sep s.data).map String.mk

/-- Replace every occurrence of one character by another. -/
def replChar (a b : Char) : List Char → List Char
  | [] => []
  | c :: rest => (if c == a then b else c) :: replChar a b rest

def strReplaceChar (s : String) (a b : Char) : String :=
  String.mk (replChar a b s.data)

/-- ASCII lowercasing (Python str.lower on the configuration values). -/
def lowerStr (s : String) : String :=
  String.mk (s.data.map Char.toLower)

/-- Python equality of a JSON value with a string (non-strings never equal). -/
def jeqStr : JValue → String → Bool
  | .str t, s => t == s
  | _, _ => false

/-- Python `k in v` for a string k: key membership for dicts, element
membership for lists, substring for strings, TypeError otherwise. -/
def pyIn (k : String) : JValue → Except PyErr Bool
  | .obj kvs => .ok (jLookup kvs k).isSome
  | .arr xs => .ok (xs.any (fun v => jeqStr v k))
  | .str s => .ok (strContains s k)
  | _ => .error .typeErr

/-- Python `v[k]` for a string key. -/
def getItem : JValue → String → Except PyErr JValue
  | .obj kvs, k =>
    match jLookup kvs k with
    | some v => .ok v
    | none => .error .keyErr
  | _, _ => .error .typeErr

/-- Python `v[i]` for a nonnegative integer index. -/
def getIdx : JValue → Nat → Except PyErr JValue
  | .arr xs, i =>
    match xs[i]? with
    | some v => .ok v
    | none => .error .indexErr
  | .str s, i =>
    match s.toList[i]? with
    | some c => .ok (.str (String.singleton c))
    | none => .error .indexErr
  | _, _ => .error .typeErr

/-- Python `v.get(k, dflt)`: only dicts have `.get`. -/
def pyGet : JValue → String → JValue → Except PyErr JValue
  | .obj kvs, k, dflt => .ok ((jLookup kvs k).getD dflt)
  | _, _, _ => .error .attrErr

/-- Numeric view used by comparisons and arithmetic (bools are ints). -/
def pyToNum : JValue → Except PyErr Rat
  | .num q => .ok q
  | .bool b => .ok (if b then 1 else 0)
  | _ => .error .typeErr

/-- Python `v > c` against a numeric constant. -/
def pyGtNum (v : JValue) (c : Rat) : Except PyErr Bool :=
  match pyToNum v with
  | .ok x => .ok (decide (c < x))
  | .error e => .error e

/-- Python `v < c` against a numeric constant. -/
def pyLtNum (v : JValue) (c : Rat) : Except PyErr Bool :=
  match pyToNum v with
  | .ok x => .ok (decide (x < c))
  | .error e => .error e

/-- Python `v != 0` (never raises; non-numbers are unequal to 0). -/
def pyNe0 : JValue → Bool
  | .num q => q != 0
  | .bool b => b
  | _ => true

/-- Python division of two values. -/
def pyDiv (a b : JValue) : Except PyErr JValue :=
  match pyToNum a, pyToNum b with
  | .ok x, .ok y => if y = 0 then .error .zeroDivErr else .ok (.num (x / y))
  | .error e, _ => .error e
  | _, .error e => .error e

/-- Python iteration over a value: list elements, dict keys, string chars. -/
def pyIter : JValue → Except PyErr (List JValue)
  | .arr xs => .ok xs
  | .obj kvs => .ok (kvs.map (fun p => .str p.1))
  | .str s => .ok (s.toList.map (fun c => .str (String.singleton c)))
  | _ => .error .typeErr

def digVal (c : Char) : Nat := c.toNat - 48

def isLeap (y : Nat) : Bool := (y % 4 == 0 && y % 100 != 0) || y % 400 == 0

def daysInMonth (y m : Nat) : Nat :=
  if m = 2 then (if isLeap y then 29 else 28)
  else if m = 4 ∨ m = 6 ∨ m = 9 ∨ m = 11 then 30 else 31

/-- Recognizer for `YYYY-MM-DD` strings accepted by strptime. -/
def validDate (s : String) : Bool :=
  match s.toList with
  | [y1, y2, y3, y4, c1, m1, m2, c2, d1, d2] =>
    (y1.isDigit && y2.isDigit && y3.isDigit && y4.isDigit &&
     (c1 == '-') && m1.isDigit && m2.isDigit && (c2 == '-') &&
     d1.isDigit && d2.isDigit) &&
    (decide (1 ≤ digVal m1 * 10 + digVal m2) &&
     decide (digVal m1 * 10 + digVal m2 ≤ 12) &&
     decide (1 ≤ digVal d1 * 10 + digVal d2) &&
     decide (digVal d1 * 10 + digVal d2 ≤
       daysInMonth (((digVal y1 * 10 + digVal y2) * 10 + digVal y3) * 10 + digVal y4)
         (digVal m1 * 10 + digVal m2)))
  | _ => false

/-- Recognizer for `HH:MM:SS` strings accepted by strptime. -/
def validTime (s : String) : Bool :=
  match s.toList with
  | [h1, h2, c1, m1, m2, c2, s1, s2] =>
    (h1.isDigit && h2.isDigit && (c1 == ':') && m1.isDigit && m2.isDigit &&
     (c2 == ':') && s1.isDigit && s2.isDigit) &&
    (decide (digVal h1 * 10 + digVal h2 ≤ 23) &&
     decide (digVal m1 * 10 + digVal m2 ≤ 59) &&
     decide (digVal s1 * 10 + digVal s2 ≤ 59))
  | _ => false

/-- `datetime.strptime(v, %Y-%m-%d)`: the argument must be a valid date
string; timestamps are represented by their canonical date string. -/
def strptimeDate : JValue → Except PyErr String
  | .str s => if validDate s then .ok s else .error .valueErr
  | _ => .error .typeErr

/-- Recognizer for `YYYY-MM-DD HH:MM:SS` strings. -/
def validDateTime (s : String) : Bool :=
  match strSplitChar s ' ' with
  | [d, t] => validDate d && validTime t
  | _ => false

/-- Python `str()` of a JSON value (approximate for containers, which no
claim exercises). -/
def pyStr : JValue → String
  | .str s => s
  | .num q => toString q
  | .bool b => if b then "True" else "False"
  | .null => "None"
  | .arr _ => "<list>"
  | .obj _ => "<dict>"

/-- A time-series point: measurement, ordered fields, ordered tags,
timestamp (date or date-time string). -/
structure Point where
  measurement : String
  fields : List (String × JValue)
  tags : List (String × String)
  time : String

/-- Tags attached for every enabled health condition, in dictionary order. -/
def hcTags (hc : List (String × Bool)) : List (String × String) :=
  (hc.filter (fun p => p.2)).map (fun p => (p.1, "true"))

/-- HEALTH_CONDITIONS: each flag reads its environment key, defaulting to
the string "true" when absent, and is enabled iff the lowercased value is
"true". -/
def flagVal (env : String → Option String) (key : String) : Bool :=
  lowerStr ((env key).getD "true") == "true"

def HEALTH_CONDITIONS (env : String → Option String) : List (String × Bool) :=
  [("long_covid", flagVal env "HEALTH_LONG_COVID"),
   ("pots", flagVal env "HEALTH_POTS"),
   ("small_fiber_neuropathy", flagVal env "HEALTH_SMALL_FIBER_NEUROPATHY"),
   ("pem", flagVal env "HEALTH_PEM"),
   ("dysautonomia", flagVal env "HEALTH_DYSAUTONOMIA")]

/-- Run a per-record step over the records of a branch loop: an exception
stops the loop and the points collected so far are kept (they were already
appended to the shared list when the exception is caught). -/
def runSteps (step : JValue → Except PyErr (Option Point)) :
    List JValue → List Point × Option PyErr
  | [] => ([], none)
  | r :: rest =>
    match step r with
    | .error e => ([], some e)
    | .ok none => runSteps step rest
    | .ok (some p) =>
      match runSteps step rest with
      | (ps, e) => (p :: ps, e)

/-- One sleep session: `if sleep_record.get(isMainSleep, True):` then build a
point with efficiency / minutesAsleep / minutesAwake / timeInBed defaulting
to 0, timestamped at the session's own dateOfSleep. -/
def sleepStep (hc : List (String × Bool)) (meas : String) (r : JValue) :
    Except PyErr (Option Point) :=
  match r with
  | .obj kvs =>
    if pyTruthy ((jLookup kvs "isMainSleep").getD (.bool true)) then
      match jLookup kvs "dateOfSleep" with
      | none => .error .keyErr
      | some dv =>
        match strptimeDate dv with
        | .error e => .error e
        | .ok t =>
          .ok (some
            { measurement := meas
              fields :=
                [("efficiency", (jLookup kvs "efficiency").getD (.num 0)),
                 ("minutes_asleep", (jLookup kvs "minutesAsleep").getD (.num 0)),
                 ("minutes_awake", (jLookup kvs "minutesAwake").getD (.num 0)),
                 ("time_in_bed", (jLookup kvs "timeInBed").getD (.num 0))]
              tags := hcTags hc
              time := t })
    else .ok none
  | _ => .error .attrErr

/-- One HRV record: guarded by `'value' in r and r['value']`; the date is
parsed first, then lf (default 0), hf (default 1), and the guarded ratio. -/
def hrvStep (hc : List (String × Bool)) (meas : String) (r : JValue) :
    Except PyErr (Option Point) :=
  match pyIn "value" r with
  | .error e => .error e
  | .ok false => .ok none
  | .ok true =>
    match getItem r "value" with
    | .error e => .error e
    | .ok v =>
      if pyTruthy v then
        match getItem r "dateTime" with
        | .error e => .error e
        | .ok dv =>
          match strptimeDate dv with
          | .error e => .error e
          | .ok t =>
            match v with
            | .obj vk =>
              match
                (if pyNe0 ((jLookup vk "hf").getD (.num 1)) then
                  pyDiv ((jLookup vk "lf").getD (.num 0)) ((jLookup vk "hf").getD (.num 1))
                else .ok (.num 0)) with
              | .error e => .error e
              | .ok ratio =>
                .ok (some
                  { measurement := meas
                    fields :=
                      [("daily_rmssd", (jLookup vk "dailyRmssd").getD (.num 0)),
                       ("deep_rmssd", (jLookup vk "deepRmssd").getD (.num 0)),
                       ("lf", (jLookup vk "lf").getD (.num 0)),
                       ("hf", (jLookup vk "hf").getD (.num 1)),
                       ("lf_hf_ratio", ratio)]
                    tags := hcTags hc
                    time := t })
            | _ => .error .attrErr
      else .ok none

/-- One SpO2 record: guarded by `'value' in r`; fields avg / min / max
default to 0; no health tags. -/
def spo2Step (meas : String) (r : JValue) : Except PyErr (Option Point) :=
  match pyIn "value" r with
  | .error e => .error e
  | .ok false => .ok none
  | .ok true =>
    match getItem r "dateTime" with
    | .error e => .error e
    | .ok dv =>
      match strptimeDate dv with
      | .error e => .error e
      | .ok t =>
        match getItem r "value" with
        | .error e => .error e
        | .ok v =>
          match v with
          | .obj vk =>
            .ok (some
              { measurement := meas
                fields :=
                  [("value", (jLookup vk "avg").getD (.num 0)),
                   ("min", (jLookup vk "min").getD (.num 0)),
                   ("max", (jLookup vk "max").getD (.num 0))]
                tags := []
                time := t })
          | _ => .error .attrErr

/-- One generic record: emits a point exactly when both dateTime and value
keys are present. -/
def genStep (meas : String) (r : JValue) : Except PyErr (Option Point) :=
  match pyIn "dateTime" r with
  | .error e => .error e
  | .ok false => .ok none
  | .ok true =>
    match pyIn "value" r with
    | .error e => .error e
    | .ok false => .ok none
    | .ok true =>
      match getItem r "dateTime" with
      | .error e => .error e
      | .ok dv =>
        match strptimeDate dv with
        | .error e => .error e
        | .ok t =>
          match getItem r "value" with
          | .error e => .error e
          | .ok v =>
            .ok (some { measurement := meas, fields := [("value", v)], tags := [], time := t })

/-- Common branch shape `if key in data and data[key]: for r in data[key]`. -/
def branchLoop (key : String) (step : JValue → Except PyErr (Option Point)) (d : JValue) :
    List Point × Option PyErr :=
  match pyIn key d with
  | .error e => ([], some e)
  | .ok false => ([], none)
  | .ok true =>
    match getItem d key with
    | .error e => ([], some e)
    | .ok v =>
      if pyTruthy v then
        match pyIter v with
        | .error e => ([], some e)
        | .ok rs => runSteps step rs
      else ([], none)

/-- The activities/heart branch: first record's restingHeartRate, when
present, becomes one point timestamped at the request date. -/
def heartBranch (hc : List (String × Bool)) (meas ts : String) (d : JValue) :
    List Point × Option PyErr :=
  match pyIn "activities-heart" d with
  | .error e => ([], some e)
  | .ok false => ([], none)
  | .ok true =>
    match getItem d "activities-heart" with
    | .error e => ([], some e)
    | .ok ah =>
      if pyTruthy ah then
        match getIdx ah 0 with
        | .error e => ([], some e)
        | .ok first =>
          match getItem first "value" with
          | .error e => ([], some e)
          | .ok hd =>
            match pyIn "restingHeartRate" hd with
            | .error e => ([], some e)
            | .ok false => ([], none)
            | .ok true =>
              match getItem hd "restingHeartRate" with
              | .error e => ([], some e)
              | .ok rhr =>
                ([{ measurement := meas
                    fields := [("resting_heart_rate", rhr)]
                    tags := hcTags hc
                    time := ts }], none)
      else ([], none)

/-- The per-metric dispatch inside the try block of process_daily_summary;
the second component records an exception caught by the handler. -/
def dailyDispatch (hc : List (String × Bool)) (metric ts : String) (d : JValue) :
    List Point × Option PyErr :=
  if metric = "activities/heart" then heartBranch hc (strReplaceChar metric '/' '_') ts d
  else if metric = "sleep" then branchLoop "sleep" (sleepStep hc (strReplaceChar metric '/' '_')) d
  else if metric = "hrv" then branchLoop "hrv" (hrvStep hc (strReplaceChar metric '/' '_')) d
  else if metric = "spo2" then branchLoop "spo2" (spo2Step (strReplaceChar metric '/' '_')) d
  else
    branchLoop ((strSplitChar metric '/').getLastD metric) (genStep (strReplaceChar metric '/' '_')) d

/-- process_daily_summary on an already-fetched payload: `if not data:
return []`, then the request date is parsed outside the try block (a
malformed request date escapes the handler), then the dispatch runs inside
try/except and returns whatever points were accumulated. -/
def process_daily_summary (hc : List (String × Bool)) (metric date : String)
    (data : Option JValue) : Except PyErr (List Point) :=
  if !pyTruthy (data.getD .null) then .ok []
  else if validDate date then .ok (dailyDispatch hc metric date (data.getD .null)).1
  else .error .valueErr

/-- First payload key whose lowercased name contains "intraday". -/
def findIntradayKey : List (String × JValue) → Option String
  | [] => none
  | (k, _) :: rest =>
    if strContains (lowerStr k) "intraday" then some k else findIntradayKey rest

/-- One intraday dataset entry: needs time and value keys; the request date
and the entry time combine into the full timestamp. -/
def intradayStep (tagged : Bool) (hc : List (String × Bool)) (meas date : String)
    (entry : JValue) : Except PyErr (Option Point) :=
  match pyIn "time" entry with
  | .error e => .error e
  | .ok false => .ok none
  | .ok true =>
    match pyIn "value" entry with
    | .error e => .error e
    | .ok false => .ok none
    | .ok true =>
      match getItem entry "time" with
      | .error e => .error e
      | .ok tv =>
        if validDateTime (date ++ " " ++ pyStr tv) then
          match getItem entry "value" with
          | .error e => .error e
          | .ok v =>
            .ok (some
              { measurement := meas
                fields := [("value", v)]
                tags := if tagged then hcTags hc else []
                time := date ++ " " ++ pyStr tv })
        else .error .valueErr

/-- The try-block body of process_intraday_data. -/
def intradayCore (step : JValue → Except PyErr (Option Point)) (d : JValue) :
    List Point × Option PyErr :=
  match d with
  | .obj kvs =>
    match findIntradayKey kvs with
    | none => ([], none)
    | some k =>
      match pyIn "dataset" ((jLookup kvs k).getD .null) with
      | .error e => ([], some e)
      | .ok false => ([], none)
      | .ok true =>
        match getItem ((jLookup kvs k).getD .null) "dataset" with
        | .error e => ([], some e)
        | .ok ds =>
          match pyIter ds with
          | .error e => ([], some e)
          | .ok rs => runSteps step rs
  | _ => ([], some .attrErr)

/-- process_intraday_data on an already-fetched payload; the try/except
makes it total, returning the accumulated points. -/
def process_intraday_data (hc : List (String × Bool)) (metric date : String)
    (data : Option JValue) : List Point :=
  if !pyTruthy (data.getD .null) then []
  else
    (intradayCore
      (intradayStep (metric = "activities/heart" || metric = "hrv") hc
        (strReplaceChar metric '/' '_' ++ "_intraday") date)
      (data.getD .null)).1

/-- The OAuth credential pair held by the client (token values are whatever
the JSON body supplied). -/
structure Creds where
  access_token : JValue
  refresh_token : JValue

/-- A scripted response of the token endpoint (status plus parsed body);
`none` at the call site stands for a transport exception. -/
structure TokenResp where
  status : Nat
  body : JValue

/-- refresh_access_token: on a 200 response the two tokens are assigned one
after the other, so a body with access_token but no refresh_token leaves a
partial update behind when the KeyError is caught; any other outcome leaves
the credentials untouched and reports failure. -/
def refresh_access_token (c : Creds) (r : Option TokenResp) : Bool × Creds :=
  match r with
  | none => (false, c)
  | some resp =>
    if resp.status = 200 then
      match getItem resp.body "access_token" with
      | .error _ => (false, c)
      | .ok a =>
        match getItem resp.body "refresh_token" with
        | .error _ => (false, { c with access_token := a })
        | .ok rt => (true, { access_token := a, refresh_token := rt })
    else (false, c)

/-- A scripted response of the metrics API. -/
structure HttpResp where
  status : Nat
  retryAfter : Option Nat
  body : JValue

/-- One observed request to the metrics API: target URL and bearer token. -/
structure ApiCall where
  url : String
  bearer : JValue

/-- Client state observed by the tests: credentials, requests issued,
refresh calls made, sleeps performed. -/
structure MRState where
  creds : Creds
  calls : List ApiCall
  refreshCount : Nat
  sleeps : List Nat

def pushCall (st : MRState) (url : String) : MRState :=
  { st with calls := st.calls ++ [{ url := url, bearer := st.creds.access_token }] }

def pushSleep (st : MRState) (w : Nat) : MRState :=
  { st with sleeps := st.sleeps ++ [w] }

/-- response.raise_for_status then response.json: 4xx/5xx becomes a caught
RequestException (None result), otherwise the parsed body is returned. -/
def finishResp (resp : HttpResp) (st : MRState) : Option JValue × MRState :=
  if 400 ≤ resp.status ∧ resp.status < 600 then (none, st) else (some resp.body, st)

/-- make_request against scripted responses: handle 401 by one refresh and
one retry with the new token, then handle 429 by sleeping for the
Retry-After duration (default 3600) and retrying the identical request.
Each iteration consumes at least one scripted API response, which bounds
the otherwise unbounded 429 recursion. -/
def make_request_go (url : String) (api : List (Option HttpResp))
    (tok : List (Option TokenResp)) (st : MRState) : Option JValue × MRState :=
  match api with
  | [] => (none, pushCall st url)
  | r0 :: rest =>
    match r0 with
    | none => (none, pushCall st url)
    | some resp =>
      if resp.status = 401 then
        match refresh_access_token (pushCall st url).creds (tok.head?.getD none) with
        | (ok, c2) =>
          let st2 : MRState :=
            { pushCall st url with creds := c2, refreshCount := st.refreshCount + 1 }
          if ok then
            match rest with
            | [] => (none, pushCall st2 url)
            | r1 :: rest2 =>
              match r1 with
              | none => (none, pushCall st2 url)
              | some resp2 =>
                if resp2.status = 429 then
                  make_request_go url rest2 tok.tail
                    (pushSleep (pushCall st2 url) (resp2.retryAfter.getD 3600))
                else finishResp resp2 (pushCall st2 url)
          else (none, st2)
      else
        if resp.status = 429 then
          make_request_go url rest tok
            (pushSleep (pushCall st url) (resp.retryAfter.getD 3600))
        else finishResp resp (pushCall st url)
termination_by api.length
decreasing_by
  · simp
    omega
  · simp

/-- The request URL: fixed base, endpoint, date (defaulting to today),
optional detail level, `.json` suffix. -/
def mkUrl (endpoint date : String) (detail : Option String) : String :=
  "https://api.fitbit.com/1/user/-/" ++ endpoint ++ "/date/" ++ date ++
    (match detail with | some dl => "/" ++ dl | none => "") ++ ".json"

def make_request (endpoint : String) (dateArg : Option String) (today : String)
    (detail : Option String) (api : List (Option HttpResp))
    (tok : List (Option TokenResp)) (st : MRState) : Option JValue × MRState :=
  make_request_go (mkUrl endpoint (dateArg.getD today) detail) api tok st

/-- The guard `if d and key in d and d[key]:` used by calculate_pem_risk. -/
def pemCond (dataOpt : Option JValue) (key : String) : Except PyErr Bool :=
  match dataOpt with
  | none => .ok false
  | some d =>
    if pyTruthy d then
      match pyIn key d with
      | .error e => .error e
      | .ok false => .ok false
      | .ok true =>
        match getItem d key with
        | .error e => .error e
        | .ok v => .ok (pyTruthy v)
    else .ok false

/-- Heart contribution: +30 when the first record's restingHeartRate
(default 0) exceeds 100. -/
def pemHeart (hr : Option JValue) : Except PyErr Rat :=
  match pemCond hr "activities-heart" with
  | .error e => .error e
  | .ok false => .ok 0
  | .ok true =>
    match hr with
    | none => .ok 0
    | some d =>
      match getItem d "activities-heart" with
      | .error e => .error e
      | .ok ah =>
        match getIdx ah 0 with
        | .error e => .error e
        | .ok first =>
          match getItem first "value" with
          | .error e => .error e
          | .ok v =>
            match pyGet v "restingHeartRate" (.num 0) with
            | .error e => .error e
            | .ok rhr =>
              match pyGtNum rhr 100 with
              | .error e => .error e
              | .ok b => .ok (if b then 30 else 0)

/-- Steps contribution: +25 when the first record's value (default 0)
exceeds 5000. -/
def pemSteps (sd : Option JValue) : Except PyErr Rat :=
  match pemCond sd "activities-steps" with
  | .error e => .error e
  | .ok false => .ok 0
  | .ok true =>
    match sd with
    | none => .ok 0
    | some d =>
      match getItem d "activities-steps" with
      | .error e => .error e
      | .ok ah =>
        match getIdx ah 0 with
        | .error e => .error e
        | .ok first =>
          match pyGet first "value" (.num 0) with
          | .error e => .error e
          | .ok steps =>
            match pyGtNum steps 5000 with
            | .error e => .error e
            | .ok b => .ok (if b then 25 else 0)

/-- HRV contribution: the loop breaks at the first record with a truthy
value block; +45 when that record's dailyRmssd (default 0) is below 20. -/
def pemHrvLoop : List JValue → Except PyErr Rat
  | [] => .ok 0
  | r :: rest =>
    match pyIn "value" r with
    | .error e => .error e
    | .ok false => pemHrvLoop rest
    | .ok true =>
      match getItem r "value" with
      | .error e => .error e
      | .ok v =>
        if pyTruthy v then
          match pyGet v "dailyRmssd" (.num 0) with
          | .error e => .error e
          | .ok rm =>
            match pyLtNum rm 20 with
            | .error e => .error e
            | .ok b => .ok (if b then 45 else 0)
        else pemHrvLoop rest

def pemHrv (hd : Option JValue) : Except PyErr Rat :=
  match pemCond hd "hrv" with
  | .error e => .error e
  | .ok false => .ok 0
  | .ok true =>
    match hd with
    | none => .ok 0
    | some d =>
      match getItem d "hrv" with
      | .error e => .error e
      | .ok v =>
        match pyIter v with
        | .error e => .error e
        | .ok rs => pemHrvLoop rs

/-- The try-block body of calculate_pem_risk over the three fetched
payloads, with the final min-100 clamp. -/
def pemBody (hr sd hd : Option JValue) : Except PyErr Rat :=
  match pemHeart hr with
  | .error e => .error e
  | .ok a =>
    match pemSteps sd with
    | .error e => .error e
    | .ok b =>
      match pemHrv hd with
      | .error e => .error e
      | .ok c => .ok (min (a + b + c) 100)

/-- calculate_pem_risk: any internal exception is caught and yields 0. -/
def calculate_pem_risk (hr sd hd : Option JValue) : Rat :=
  match pemBody hr sd hd with
  | .ok v => v
  | .error _ => 0

/-- The pem_risk point appended by main when long_covid or pem is enabled. -/
def pemPoint (hc : List (String × Bool)) (risk : Rat) (now : String) : Point :=
  { measurement := "pem_risk"
    fields := [("risk_score", .num risk)]
    tags :=
      [("long_covid", if (List.lookup "long_covid" hc).getD false then "True" else "False"),
       ("pots", if (List.lookup "pots" hc).getD false then "True" else "False")]
    time := now }

/-- The batch accumulated by main: daily points, intraday points, then the
optional pem_risk point. -/
def allPointsOf (hc : List (String × Bool)) (daily intraday : List (List Point))
    (risk : Rat) (now : String) : List Point :=
  (daily.flatten ++ intraday.flatten) ++
    (if (List.lookup "long_covid" hc).getD false || (List.lookup "pem" hc).getD false then
      [pemPoint hc risk now]
    else [])

/-- Observable outcome of one main run. -/
structure RunOutcome where
  handoffCalls : Nat
  sinkWrites : Nat
  sinkErrorLogged : Bool
  completed : Bool
deriving DecidableEq, Repr

/-- InfluxDBWriter.write_points: skips an empty batch, otherwise issues one
write; a write exception is caught and logged, never re-raised. Returns
(write invocations, error logged). -/
def write_points (sinkFails : Bool) (points : List Point) : Nat × Bool :=
  if points.isEmpty then (0, false) else (1, sinkFails)

/-- main: accumulate the batch, invoke write_points only when the batch is
non-empty, and always reach the final completion log. -/
def main_run (hc : List (String × Bool)) (daily intraday : List (List Point))
    (risk : Rat) (now : String) (sinkFails : Bool) : RunOutcome :=
  if (allPointsOf hc daily intraday risk now).isEmpty then
    { handoffCalls := 0, sinkWrites := 0, sinkErrorLogged := false, completed := true }
  else
    { handoffCalls := 1
      sinkWrites := (write_points sinkFails (allPointsOf hc daily intraday risk now)).1
      sinkErrorLogged := (write_points sinkFails (allPointsOf hc daily intraday risk now)).2
      completed := true }

/-- Canonical heart payload with a given resting heart rate. -/
def hrPayload (rhr : Rat) : JValue :=
  .obj [("activities-heart", .arr [.obj [("value", .obj [("restingHeartRate", .num rhr)])]])]

/-- Canonical steps payload with a given step count. -/
def stepsPayload (steps : Rat) : JValue :=
  .obj [("activities-steps", .arr [.obj [("value", .num steps)]])]

/-- Canonical HRV payload with a given daily RMSSD. -/
def hrvPayload (rmssd : Rat) : JValue :=
  .obj [("hrv", .arr [.obj [("value", .obj [("dailyRmssd", .num rmssd)])]])]

/-- HRV payload with two records carrying different daily RMSSD values. -/
def hrvPayload2 (a b : Rat) : JValue :=
  .obj [("hrv", .arr [.obj [("value", .obj [("dailyRmssd", .num a)])],
                      .obj [("value", .obj [("dailyRmssd", .num b)])]])]

/-- A sleep session record with a date and an optional isMainSleep flag. -/
def mkSleepSession (p : String × Option Bool) : JValue :=
  .obj (("dateOfSleep", .str p.1) ::
    (match p.2 with | some b => [("isMainSleep", .bool b)] | none => []))

/-- The point emitted for a sleep session that carries no explicit field
values (everything defaults to 0). -/
def mkSleepPoint (hc : List (String × Bool)) (ds : String) : Point :=
  { measurement := "sleep"
    fields := [("efficiency", .num 0), ("minutes_asleep", .num 0),
               ("minutes_awake", .num 0), ("time_in_bed", .num 0)]
    tags := hcTags hc
    time := ds }

/-- A generic-rule record with optional dateTime and value keys. -/
def mkGenRecord (p : Option String × Option JValue) : JValue :=
  .obj ((match p.1 with | some ds => [("dateTime", .str ds)] | none => []) ++
        (match p.2 with | some v => [("value", v)] | none => []))

/-- The point a successful step emitted, if any. -/
def extractPt : Except PyErr (Option Point) → Option Point
  | .ok (some p) => some p
  | _ => none

/-- Claim C3, counterexample: a 200 token response whose body carries an
access_token but no refresh_token makes refresh_access_token report failure
while the stored access token has already been replaced — the credentials
are not left exactly as they were before the call. -/
theorem c3_counterexample :
    refresh_access_token
        { access_token := .str "oldA", refresh_token := .str "oldR" }
        (some { status := 200, body := .obj [("access_token", .str "newA")] }) =
      (false, { access_token := .str "newA", refresh_token := .str "oldR" }) ∧
    JValue.str "newA" ≠ JValue.str "oldA" := by
  constructor
  · rfl
  · simp

/-- Claim C3 (amended): on a transport error, a non-200 response, or a 200
response without an access_token, refresh_access_token fails and leaves both
credentials unchanged; on a 200 response with both tokens it succeeds and
replaces both; but on a 200 response with an access_token and no
refresh_token it fails after replacing only the access token, so the update
is not atomic. -/
theorem c3_refresh_update_cases (c : Creds) (resp : TokenResp) :
    (refresh_access_token c none = (false, c)) ∧
    (resp.status ≠ 200 → refresh_access_token c (some resp) = (false, c)) ∧
    (∀ e, resp.status = 200 → getItem resp.body "access_token" = .error e →
      refresh_access_token c (some resp) = (false, c)) ∧
    (∀ a e, resp.status = 200 → getItem resp.body "access_token" = .ok a →
      getItem resp.body "refresh_token" = .error e →
      refresh_access_token c (some resp) = (false, { c with access_token := a })) ∧
    (∀ a rt, resp.status = 200 → getItem resp.body "access_token" = .ok a →
      getItem resp.body "refresh_token" = .ok rt →
      refresh_access_token c (some resp) =
        (true, { access_token := a, refresh_token := rt })) := by
  refine ⟨rfl, ?_, ?_, ?_, ?_⟩ <;> intros <;> simp [refresh_access_token, *]

/-- Witness for c3_refresh_update_cases at a concrete successful refresh. -/
theorem c3_witness :
    refresh_access_token { access_token := .null, refresh_token := .null }
        (some { status := 200,
                body := .obj [("access_token", .str "a"), ("refresh_token", .str "b")] }) =
      (true, { access_token := .str "a", refresh_token := .str "b" }) :=
  (c3_refresh_update_cases
      { access_token := .null, refresh_token := .null }
      { status := 200,
        body := .obj [("access_token", .str "a"), ("refresh_token", .str "b")] }).2.2.2.2
    (.str "a") (.str "b") rfl rfl rfl

/-- Claim C9, counterexample: with an empty configuration every flag reads
its default "true", so the long_covid flag is enabled and a normalized
heart point carries all five health-condition tags — not zero tags. -/
theorem c9_counterexample :
    List.lookup "long_covid" (HEALTH_CONDITIONS (fun _ => none)) = some true ∧
    process_daily_summary (HEALTH_CONDITIONS (fun _ => none)) "activities/heart"
        "2024-01-15" (some (hrPayload 60)) =
      .ok [{ measurement := "activities_heart"
             fields := [("resting_heart_rate", .num 60)]
             tags := [("long_covid", "true"), ("pots", "true"),
                      ("small_fiber_neuropathy", "true"), ("pem", "true"),
                      ("dysautonomia", "true")]
             time := "2024-01-15" }] := by
  constructor
  · rfl
  · rfl

/-- Claim C9 (amended): absence of a health-condition configuration entry
defaults that flag to enabled, so with an empty configuration all five
flags are enabled and every tagged point carries all five tags. -/
theorem c9_flags_default_enabled (env : String → Option String) :
    (env "HEALTH_LONG_COVID" = none →
      List.lookup "long_covid" (HEALTH_CONDITIONS env) = some true) ∧
    (env "HEALTH_POTS" = none →
      List.lookup "pots" (HEALTH_CONDITIONS env) = some true) ∧
    (env "HEALTH_SMALL_FIBER_NEUROPATHY" = none →
      List.lookup "small_fiber_neuropathy" (HEALTH_CONDITIONS env) = some true) ∧
    (env "HEALTH_PEM" = none →
      List.lookup "pem" (HEALTH_CONDITIONS env) = some true) ∧
    (env "HEALTH_DYSAUTONOMIA" = none →
      List.lookup "dysautonomia" (HEALTH_CONDITIONS env) = some true) ∧
    hcTags (HEALTH_CONDITIONS (fun _ => none)) =
      [("long_covid", "true"), ("pots", "true"), ("small_fiber_neuropathy", "true"),
       ("pem", "true"), ("dysautonomia", "true")] := by
  refine ⟨?_, ?_, ?_, ?_, ?_, rfl⟩ <;> intro h <;>
    simp [HEALTH_CONDITIONS, flagVal, h, List.lookup] <;> rfl

/-- Witness for c9_flags_default_enabled at the empty configuration. -/
theorem c9_witness :
    List.lookup "long_covid" (HEALTH_CONDITIONS (fun _ => none)) = some true :=
  (c9_flags_default_enabled (fun _ => none)).1 rfl

/-- Claim C10, counterexample: a run in which every metric contributed zero
points and the pem flags are disabled accumulates an empty batch, and the
batch is never handed to the sink — not exactly once. -/
theorem c10_counterexample :
    main_run (HEALTH_CONDITIONS (fun _ => some "false")) [] [] 0 "2024-01-15" false =
      { handoffCalls := 0, sinkWrites := 0, sinkErrorLogged := false, completed := true } := by
  rfl

/-- Claim C10 (amended): the batch is handed to the sink at most once per
run — exactly once when it is non-empty and never when it is empty — and a
sink write failure is logged without aborting: the run always reaches its
completion state. -/
theorem c10_single_handoff (hc : List (String × Bool)) (daily intraday : List (List Point))
    (risk : Rat) (now : String) (sinkFails : Bool) :
    (main_run hc daily intraday risk now sinkFails).completed = true ∧
    (main_run hc daily intraday risk now sinkFails).handoffCalls ≤ 1 ∧
    (allPointsOf hc daily intraday risk now ≠ [] →
      (main_run hc daily intraday risk now sinkFails).handoffCalls = 1 ∧
      (main_run hc daily intraday risk now sinkFails).sinkWrites = 1 ∧
      (main_run hc daily intraday risk now sinkFails).sinkErrorLogged = sinkFails) ∧
    (allPointsOf hc daily intraday risk now = [] →
      (main_run hc daily intraday risk now sinkFails).handoffCalls = 0) := by
  by_cases h : (allPointsOf hc daily intraday risk now) = [] <;>
    simp [main_run, write_points, h, List.isEmpty_iff]

/-- Witness for c10_single_handoff at a concrete non-empty run with a
failing sink. -/
theorem c10_witness :
    (main_run (HEALTH_CONDITIONS (fun _ => none))
        [[{ measurement := "m", fields := [("value", .num 1)], tags := [], time := "t" }]]
        [] 0 "2024-01-15" true).handoffCalls = 1 ∧
    (main_run (HEALTH_CONDITIONS (fun _ => none))
        [[{ measurement := "m", fields := [("value", .num 1)], tags := [], time := "t" }]]
        [] 0 "2024-01-15" true).sinkWrites = 1 ∧
    (main_run (HEALTH_CONDITIONS (fun _ => none))
        [[{ measurement := "m", fields := [("value", .num 1)], tags := [], time := "t" }]]
        [] 0 "2024-01-15" true).sinkErrorLogged = true :=
  (c10_single_handoff (HEALTH_CONDITIONS (fun _ => none))
      [[{ measurement := "m", fields := [("value", .num 1)], tags := [], time := "t" }]]
      [] 0 "2024-01-15" true).2.2.1 (by simp [allPointsOf])

/-- Claim C1: a fetch whose first response is 401 performs exactly one
refresh; when the refresh succeeds it retries the identical request exactly
once with the new access token (two API requests, one refresh call, stored
credentials equal the refreshed pair) and returns the retried response's
data; when the refresh fails the fetch returns no data after the single
original request and single refresh call. -/
theorem c1_refresh_on_401 (ep date today : String) (detail : Option String)
    (d a r : JValue) (c0 : Creds) :
    (make_request ep (some date) today detail
        [some { status := 401, retryAfter := none, body := .null },
         some { status := 200, retryAfter := none, body := d }]
        [some { status := 200,
                body := .obj [("access_token", a), ("refresh_token", r)] }]
        { creds := c0, calls := [], refreshCount := 0, sleeps := [] } =
      (some d,
       { creds := { access_token := a, refresh_token := r },
         calls := [{ url := mkUrl ep date detail, bearer := c0.access_token },
                   { url := mkUrl ep date detail, bearer := a }],
         refreshCount := 1, sleeps := [] })) ∧
    (make_request ep (some date) today detail
        [some { status := 401, retryAfter := none, body := .null }]
        [some { status := 500, body := .null }]
        { creds := c0, calls := [], refreshCount := 0, sleeps := [] } =
      (none,
       { creds := c0,
         calls := [{ url := mkUrl ep date detail, bearer := c0.access_token }],
         refreshCount := 1, sleeps := [] })) := by
  constructor
  · simp [make_request, make_request_go, refresh_access_token, getItem, jLookup,
      pushCall, finishResp]
  · simp [make_request, make_request_go, refresh_access_token, pushCall]

/-- Helper: a run of 429 responses followed by a 200 makes make_request_go
sleep once per 429 for the Retry-After duration (default 3600), reissue the
identical request each time, and return the final response's body. -/
theorem make_request_go_rate_limit (url : String) (d : JValue) :
    ∀ (ws : List (Option Nat)) (tok : List (Option TokenResp)) (st : MRState),
    make_request_go url
        (ws.map (fun w => some { status := 429, retryAfter := w, body := .null }) ++
          [some { status := 200, retryAfter := none, body := d }]) tok st =
      (some d,
       { creds := st.creds,
         calls := st.calls ++ List.replicate (ws.length + 1)
           { url := url, bearer := st.creds.access_token },
         refreshCount := st.refreshCount,
         sleeps := st.sleeps ++ ws.map (fun w => w.getD 3600) }) := by
  intro ws
  induction ws with
  | nil =>
    intro tok st
    simp [make_request_go, finishResp, pushCall]
  | cons w ws ih =>
    intro tok st
    simp [make_request_go, pushCall, pushSleep, ih, List.replicate_succ]

/-- Claim C2: on a rate-limit response the client sleeps for the
server-supplied wait (default 3600 when absent) and retries the identical
request, repeating while 429 responses arrive; for any run of 429s followed
by a success, the data of the final response is returned, one request with
the same URL and bearer token is issued per response, and the sleeps are
exactly the supplied waits; in particular a first response with wait 2
followed by a success suspends for 2 seconds and returns the second
response's data, and a 429 without Retry-After suspends 3600 seconds. -/
theorem c2_rate_limit_retry (ep date today : String) (detail : Option String)
    (d : JValue) (c0 : Creds) (tok : List (Option TokenResp)) (ws : List (Option Nat)) :
    (make_request ep (some date) today detail
        (ws.map (fun w => some { status := 429, retryAfter := w, body := .null }) ++
          [some { status := 200, retryAfter := none, body := d }]) tok
        { creds := c0, calls := [], refreshCount := 0, sleeps := [] } =
      (some d,
       { creds := c0,
         calls := List.replicate (ws.length + 1)
           { url := mkUrl ep date detail, bearer := c0.access_token },
         refreshCount := 0,
         sleeps := ws.map (fun w => w.getD 3600) })) ∧
    (make_request ep (some date) today detail
        [some { status := 429, retryAfter := some 2, body := .null },
         some { status := 200, retryAfter := none, body := d }] tok
        { creds := c0, calls := [], refreshCount := 0, sleeps := [] } =
      (some d,
       { creds := c0,
         calls := List.replicate 2 { url := mkUrl ep date detail, bearer := c0.access_token },
         refreshCount := 0, sleeps := [2] })) ∧
    (make_request ep (some date) today detail
        [some { status := 429, retryAfter := none, body := .null },
         some { status := 200, retryAfter := none, body := d }] tok
        { creds := c0, calls := [], refreshCount := 0, sleeps := [] } =
      (some d,
       { creds := c0,
         calls := List.replicate 2 { url := mkUrl ep date detail, bearer := c0.access_token },
         refreshCount := 0, sleeps := [3600] })) := by
  refine ⟨?_, ?_, ?_⟩
  · simpa [make_request] using
      make_request_go_rate_limit (mkUrl ep date detail) d ws tok
        { creds := c0, calls := [], refreshCount := 0, sleeps := [] }
  · simpa [make_request] using
      make_request_go_rate_limit (mkUrl ep date detail) d [some 2] tok
        { creds := c0, calls := [], refreshCount := 0, sleeps := [] }
  · simpa [make_request] using
      make_request_go_rate_limit (mkUrl ep date detail) d [none] tok
        { creds := c0, calls := [], refreshCount := 0, sleeps := [] }

/-- Claim C4: calculate_pem_risk follows the additive fixed-weight rule —
resting heart rate above 100 adds 30, steps above 5000 add 25, the first
HRV record's dailyRmssd below 20 adds 45 (later records are ignored) — with
the sum clamped at 100; the cited instances evaluate to 100 and 0, and any
internal failure yields 0. -/
theorem c4_pem_risk_rule :
    (∀ rhr steps rmssd : Rat,
      calculate_pem_risk (some (hrPayload rhr)) (some (stepsPayload steps))
          (some (hrvPayload rmssd)) =
        min ((if 100 < rhr then 30 else 0) + (if 5000 < steps then 25 else 0) +
          (if rmssd < 20 then 45 else 0)) 100) ∧
    calculate_pem_risk (some (hrPayload 110)) (some (stepsPayload 6000))
        (some (hrvPayload 15)) = 100 ∧
    calculate_pem_risk (some (hrPayload 80)) (some (stepsPayload 1000))
        (some (hrvPayload 40)) = 0 ∧
    (∀ a b : Rat,
      calculate_pem_risk none none (some (hrvPayload2 a b)) =
        (if a < 20 then (45 : Rat) else 0)) ∧
    (∀ hr sd hd e, pemBody hr sd hd = .error e → calculate_pem_risk hr sd hd = 0) := by
  have hg : ∀ rhr steps rmssd : Rat,
      calculate_pem_risk (some (hrPayload rhr)) (some (stepsPayload steps))
          (some (hrvPayload rmssd)) =
        min ((if 100 < rhr then 30 else 0) + (if 5000 < steps then 25 else 0) +
          (if rmssd < 20 then 45 else 0)) 100 := by
    intro rhr steps rmssd
    simp [calculate_pem_risk, pemBody, pemHeart, pemSteps, pemHrv, pemHrvLoop, pemCond,
      hrPayload, stepsPayload, hrvPayload, pyIn, getItem, getIdx, pyGet, pyTruthy,
      pyToNum, pyGtNum, pyLtNum, jLookup, pyIter]
  refine ⟨hg, ?_, ?_, ?_, ?_⟩
  · have h := hg 110 6000 15
    norm_num at h
    exact h
  · have h := hg 80 1000 40
    norm_num at h
    exact h
  · intro a b
    by_cases h : a < 20 <;>
      · simp [calculate_pem_risk, pemBody, pemHeart, pemSteps, pemHrv, pemHrvLoop, pemCond,
          hrvPayload2, pyIn, getItem, getIdx, pyGet, pyTruthy, pyToNum, pyGtNum, pyLtNum,
          jLookup, pyIter, h]
        try norm_num
  · intro hr sd hd e h
    simp [calculate_pem_risk, h]

/-- Witness for c4_pem_risk_rule: an internal failure (a list payload where
a dict is expected) yields the score 0. -/
theorem c4_witness :
    calculate_pem_risk (some (.arr [.str "activities-heart"])) none none = 0 :=
  (c4_pem_risk_rule).2.2.2.2 (some (.arr [.str "activities-heart"])) none none
    PyErr.typeErr rfl

/-- Claim C5: in the hrv rule, a record whose value block has hf equal to 0
is emitted with lf_hf_ratio exactly 0 and no division error is raised; when
hf is absent it defaults to 1 before the ratio lf / hf is computed, so the
ratio is lf and no division by zero from a missing key can occur (the
dispatch records no exception in either case). -/
theorem c5_hrv_ratio (hc : List (String × Bool)) (date ds : String) (lf : Rat)
    (hdate : validDate date = true) (hds : validDate ds = true) :
    (process_daily_summary hc "hrv" date
        (some (.obj [("hrv", .arr [.obj [("dateTime", .str ds),
          ("value", .obj [("lf", .num lf), ("hf", .num 0)])]])])) =
      .ok [{ measurement := "hrv"
             fields := [("daily_rmssd", .num 0), ("deep_rmssd", .num 0), ("lf", .num lf),
               ("hf", .num 0), ("lf_hf_ratio", .num 0)]
             tags := hcTags hc
             time := ds }]) ∧
    ((dailyDispatch hc "hrv" date
        (.obj [("hrv", .arr [.obj [("dateTime", .str ds),
          ("value", .obj [("lf", .num lf), ("hf", .num 0)])]])])).2 = none) ∧
    (process_daily_summary hc "hrv" date
        (some (.obj [("hrv", .arr [.obj [("dateTime", .str ds),
          ("value", .obj [("lf", .num lf)])]])])) =
      .ok [{ measurement := "hrv"
             fields := [("daily_rmssd", .num 0), ("deep_rmssd", .num 0), ("lf", .num lf),
               ("hf", .num 1), ("lf_hf_ratio", .num lf)]
             tags := hcTags hc
             time := ds }]) ∧
    ((dailyDispatch hc "hrv" date
        (.obj [("hrv", .arr [.obj [("dateTime", .str ds),
          ("value", .obj [("lf", .num lf)])]])])).2 = none) := by
  refine ⟨?_, ?_, ?_, ?_⟩ <;>
    simp [process_daily_summary, hdate, dailyDispatch, branchLoop, hrvStep, runSteps,
      pyIn, getItem, jLookup, pyTruthy, pyIter, strptimeDate, hds, pyNe0, pyDiv, pyToNum] <;>
    rfl

/-- Witness for c5_hrv_ratio at a concrete date and lf value. -/
theorem c5_witness :
    process_daily_summary [] "hrv" "2024-01-15"
        (some (.obj [("hrv", .arr [.obj [("dateTime", .str "2024-01-15"),
          ("value", .obj [("lf", .num 6), ("hf", .num 0)])]])])) =
      .ok [{ measurement := "hrv"
             fields := [("daily_rmssd", .num 0), ("deep_rmssd", .num 0), ("lf", .num 6),
               ("hf", .num 0), ("lf_hf_ratio", .num 0)]
             tags := []
             time := "2024-01-15" }] :=
  (c5_hrv_ratio [] "2024-01-15" "2024-01-15" 6 rfl rfl).1

/-- Helper: the sleep loop keeps exactly the sessions whose isMainSleep flag
is not the explicit boolean false, emitting one point per kept session. -/
theorem runSteps_sleep (hc : List (String × Bool)) (ss : List (String × Option Bool))
    (hss : ∀ p ∈ ss, validDate p.1 = true) :
    runSteps (sleepStep hc "sleep") (ss.map mkSleepSession) =
      ((ss.filter (fun p => p.2 != some false)).map (fun p => mkSleepPoint hc p.1), none) := by
  induction ss with
  | nil => rfl
  | cons p ps ih =>
    obtain ⟨ds, m⟩ := p
    have h1 : validDate ds = true := hss (ds, m) (by simp)
    have h2 : ∀ q ∈ ps, validDate q.1 = true := fun q hq => hss q (by simp [hq])
    cases m with
    | none =>
      simp [runSteps, sleepStep, mkSleepSession, jLookup, pyTruthy, strptimeDate, h1,
        ih h2, mkSleepPoint]
    | some b =>
      cases b <;>
        simp [runSteps, sleepStep, mkSleepSession, jLookup, pyTruthy, strptimeDate, h1,
          ih h2, mkSleepPoint]

/-- Claim C6: sleep normalization emits one point per session exactly for
the sessions whose isMainSleep flag is true or absent (absent defaults to
true); every session explicitly marked false contributes no point. -/
theorem c6_sleep_main_filter (hc : List (String × Bool)) (date : String)
    (ss : List (String × Option Bool))
    (hdate : validDate date = true) (hss : ∀ p ∈ ss, validDate p.1 = true) :
    process_daily_summary hc "sleep" date
        (some (.obj [("sleep", .arr (ss.map mkSleepSession))])) =
      .ok ((ss.filter (fun p => p.2 != some false)).map (fun p => mkSleepPoint hc p.1)) := by
  cases ss with
  | nil => simp [process_daily_summary, hdate, dailyDispatch, branchLoop, pyIn, getItem,
      jLookup, pyTruthy]
  | cons p ps =>
    have hrepl : strReplaceChar "sleep" '/' '_' = "sleep" := rfl
    have hr := runSteps_sleep hc (p :: ps) hss
    simp only [List.map_cons] at hr
    simp [process_daily_summary, hdate, dailyDispatch, branchLoop, pyIn, getItem,
      jLookup, pyTruthy, pyIter, hrepl, hr]

/-- Witness for c6_sleep_main_filter: three sessions (flag absent, false,
true) yield points for the first and third only. -/
theorem c6_witness :
    process_daily_summary [] "sleep" "2024-01-15"
        (some (.obj [("sleep", .arr
          [mkSleepSession ("2024-01-14", none),
           mkSleepSession ("2024-01-13", some false),
           mkSleepSession ("2024-01-12", some true)])])) =
      .ok [mkSleepPoint [] "2024-01-14", mkSleepPoint [] "2024-01-12"] := by
  have h := c6_sleep_main_filter [] "2024-01-15"
    [("2024-01-14", none), ("2024-01-13", some false), ("2024-01-12", some true)]
    rfl (by decide)
  simpa using h

/-- Helper: the generic loop emits one point per record exactly for the
records carrying both a dateTime and a value key. -/
theorem runSteps_gen (meas : String) (rs : List (Option String × Option JValue))
    (hrs : (rs.all (fun p =>
      match p.1 with | some ds => validDate ds | none => true)) = true) :
    runSteps (genStep meas) (rs.map mkGenRecord) =
      (rs.filterMap (fun p =>
        match p with
        | (some ds, some v) =>
          some { measurement := meas, fields := [("value", v)], tags := [], time := ds }
        | _ => none), none) := by
  induction rs with
  | nil => rfl
  | cons p ps ih =>
    obtain ⟨od, ov⟩ := p
    simp only [List.all_cons, Bool.and_eq_true] at hrs
    obtain ⟨h1, h2⟩ := hrs
    cases od with
    | none =>
      cases ov <;>
        simp [runSteps, genStep, mkGenRecord, pyIn, jLookup, getItem, strptimeDate, ih h2]
    | some ds =>
      simp only at h1
      cases ov <;>
        simp [runSteps, genStep, mkGenRecord, pyIn, jLookup, getItem, strptimeDate, h1, ih h2]

/-- Claim C7: every daily metric not matching a specialized rule is handled
by the generic fallback, which reads the payload key equal to the metric's
trailing path segment and emits at most one point per record — exactly one
for each record carrying both a dateTime and a value key, with the single
field value and the record's own date as timestamp. -/
theorem c7_generic_fallback (hc : List (String × Bool)) (metric date : String)
    (rs : List (Option String × Option JValue))
    (hm1 : metric ≠ "activities/heart") (hm2 : metric ≠ "sleep")
    (hm3 : metric ≠ "hrv") (hm4 : metric ≠ "spo2")
    (hdate : validDate date = true)
    (hrs : (rs.all (fun p =>
      match p.1 with | some ds => validDate ds | none => true)) = true) :
    process_daily_summary hc metric date
        (some (.obj [((strSplitChar metric '/').getLastD metric,
          .arr (rs.map mkGenRecord))])) =
      .ok (rs.filterMap (fun p =>
        match p with
        | (some ds, some v) =>
          some { measurement := strReplaceChar metric '/' '_'
                 fields := [("value", v)], tags := [], time := ds }
        | _ => none)) := by
  cases rs with
  | nil =>
    simp [process_daily_summary, hdate, dailyDispatch, hm1, hm2, hm3, hm4, branchLoop,
      pyIn, getItem, jLookup, pyTruthy]
  | cons p ps =>
    have hr := runSteps_gen (strReplaceChar metric '/' '_') (p :: ps) hrs
    simp only [List.map_cons] at hr
    simp [process_daily_summary, hdate, dailyDispatch, hm1, hm2, hm3, hm4, branchLoop,
      pyIn, getItem, jLookup, pyTruthy, pyIter, hr]

/-- Witness for c7_generic_fallback: activities/steps with one complete
record, one missing-date record and one missing-value record yields exactly
one point. -/
theorem c7_witness :
    process_daily_summary [] "activities/steps" "2024-01-15"
        (some (.obj [("steps" , .arr
          [mkGenRecord (some "2024-01-15", some (.num 7)),
           mkGenRecord (none, some (.num 8)),
           mkGenRecord (some "2024-01-14", none)])])) =
      .ok [{ measurement := "activities_steps", fields := [("value", .num 7)],
             tags := [], time := "2024-01-15" }] := by
  have h := c7_generic_fallback [] "activities/steps" "2024-01-15"
    [(some "2024-01-15", some (.num 7)), (none, some (.num 8)), (some "2024-01-14", none)]
    (by decide) (by decide) (by decide) (by decide) rfl rfl
  simpa using h

/-- Claim C8, counterexample: a generic payload whose second record has a
malformed date raises internally, the handler catches the error, and the
metric still contributes the one point accumulated before the error — the
result is not an empty sequence. -/
theorem c8_counterexample :
    process_daily_summary [] "activities/steps" "2024-01-15"
        (some (.obj [("steps", .arr
          [.obj [("dateTime", .str "2024-01-15"), ("value", .num 1)],
           .obj [("dateTime", .str "oops"), ("value", .num 2)]])])) =
      .ok [{ measurement := "activities_steps", fields := [("value", .num 1)],
             tags := [], time := "2024-01-15" }] ∧
    (dailyDispatch [] "activities/steps" "2024-01-15"
        (.obj [("steps", .arr
          [.obj [("dateTime", .str "2024-01-15"), ("value", .num 1)],
           .obj [("dateTime", .str "oops"), ("value", .num 2)]])])).2 =
      some PyErr.valueErr :=
  ⟨rfl, rfl⟩

/-- Claim C8 (amended): for a well-formed request date, normalization never
raises out of the call — every internal error is caught; but the metric then
contributes exactly the points accumulated before the error, which can be a
non-empty prefix rather than the empty sequence. -/
theorem c8_caught_error_keeps_points :
    (∀ (hc : List (String × Bool)) (metric date : String) (data : Option JValue),
      validDate date = true →
      ∃ pts, process_daily_summary hc metric date data = .ok pts) ∧
    (∀ (step : JValue → Except PyErr (Option Point)) (pre : List JValue) (bad : JValue)
      (post : List JValue) (e : PyErr),
      (∀ r ∈ pre, ∃ op, step r = .ok op) → step bad = .error e →
      runSteps step (pre ++ bad :: post) =
        (pre.filterMap (fun r => extractPt (step r)), some e)) := by
  constructor
  · intro hc metric date data h
    by_cases ht : pyTruthy (data.getD .null)
    · exact ⟨(dailyDispatch hc metric date (data.getD .null)).1,
        by simp [process_daily_summary, ht, h]⟩
    · exact ⟨[], by simp [process_daily_summary, ht]⟩
  · intro step pre bad post e
    induction pre with
    | nil =>
      intro hpre hbad
      simp [runSteps, hbad]
    | cons r rsx ih =>
      intro hpre hbad
      obtain ⟨op, hop⟩ := hpre r (by simp)
      have ih2 := ih (fun q hq => hpre q (by simp [hq])) hbad
      cases op <;> simp [runSteps, hop, extractPt, ih2]

/-- Witness for c8_caught_error_keeps_points: a missing payload yields an ok result,
and a loop whose first record raises yields no points and the caught error. -/
theorem c8_witness :
    (∃ pts, process_daily_summary [] "activities/steps" "2024-01-15" none = .ok pts) ∧
    runSteps (genStep "m") ([] ++ JValue.num 0 :: []) = ([], some PyErr.typeErr) :=
  ⟨(c8_caught_error_keeps_points).1 [] "activities/steps" "2024-01-15" none rfl,
   (c8_caught_error_keeps_points).2 (genStep "m") [] (JValue.num 0) [] PyErr.typeErr
     (by simp) rfl⟩
